import Mathlib

/-!
Shallow embedding of the SCN repository (`utils.py`, `train.py`) and
verification of its specification claims.

Conventions of the embedding:
* Python strings are Lean `String`s; Python string comparison is the
  lexicographic order on the underlying character list (`String.data`),
  which coincides with Mathlib's linear order on `String` but is
  kernel-computable.
* The filesystem is a predicate `String → Bool` recording which paths exist.
* Python floats that are only compared or appended (metric values) are `ℚ`.
* External library values (feature containers, tensors) are type parameters.
-/

namespace SCN

/-! ### Python string order

Python compares strings lexicographically by code point, which is the
lexicographic order on `String.data`. -/

/-- Python string comparison `a <= b` (lexicographic on code points). -/
def pyStrLe (a b : String) : Prop := a.data ≤ b.data

/-- Python string comparison `a < b` (lexicographic on code points). -/
def pyStrLt (a b : String) : Prop := a.data < b.data

instance : DecidableRel pyStrLe := fun a b => inferInstanceAs (Decidable (a.data ≤ b.data))

instance : DecidableRel pyStrLt := fun a b => inferInstanceAs (Decidable (a.data < b.data))

instance : IsTotal String pyStrLe := ⟨fun a b => le_total a.data b.data⟩

instance : IsTrans String pyStrLe := ⟨fun _ _ _ => le_trans⟩

/-! ### utils.py, lines 16-28: class MusicData -/

/-- One row of the `data_list` table passed to `MusicData.__init__`
(`utils.py` lines 84-99 build these rows as
`{'file_name': ..., 'file_label': ...}`). -/
structure Row where
  file_name : String
  file_label : String
deriving DecidableEq

/-- The column `data_list['file_label'].values`. -/
def fileLabels (rows : List Row) : List String := rows.map Row.file_label

/-- The distinct labels, `data_list['file_label'].unique()` (as a set;
order is irrelevant because the result is sorted next). -/
def uniqueLabels (rows : List Row) : List String := (fileLabels rows).dedup

/-- `sorted(data_list['file_label'].unique())` (utils.py line 19). -/
def sortedUniqueLabels (rows : List Row) : List String :=
  (uniqueLabels rows).insertionSort pyStrLe

/-- The dict `{label: index for index, label in enumerate(sorted(...))}`
(utils.py line 19), as an association list. -/
def label2index (rows : List Row) : List (String × Nat) :=
  (sortedUniqueLabels rows).enum.map (fun p => (p.2, p.1))

/-- Dict lookup `self.label2index[label]`. -/
def labelIndex (rows : List Row) (l : String) : Option Nat :=
  (label2index rows).lookup l

/-- `self.targets = np.array([self.label2index[label] for label in
data_list['file_label'].values])` (utils.py line 20).  The lookup never
fails on a label drawn from the table itself (proved below), so the
`getD 0` default is never used. -/
def targets (rows : List Row) : List Nat :=
  rows.map (fun r => (labelIndex rows r.file_label).getD 0)

/-- The state `MusicData.__init__` stores: `self.samples` (utils.py line 18)
and `self.targets` (line 20). -/
structure MusicData where
  samples : List String
  targets : List Nat
deriving DecidableEq

/-- `MusicData.__init__(data_list)` (utils.py lines 17-20). -/
def musicDataInit (rows : List Row) : MusicData :=
  ⟨rows.map Row.file_name, targets rows⟩

/-- The filename `MusicData.__init__` loads the normalizer from
(utils.py line 21: `Normalizer().load(filename='norm_factors.cpickle')`). -/
def musicDataNormalizerPath : String := "norm_factors.cpickle"

/-- `MusicData.__getitem__(index)` (utils.py lines 23-25): load the feature
at `samples[index]`, normalize it, cast to float32, add one leading
dimension (`unsqueeze(dim=0)`, modelled as a singleton list), pair with
`targets[index]`.  Loading, normalization and the float32 cast are external
library operations and are parameters. -/
def musicDataGetitem {Feat Tensor : Type} (loadFeature : String → Feat)
    (normalize : Feat → Feat) (astypeFloat32 : Feat → Tensor)
    (md : MusicData) (index : Nat) : List Tensor × Nat :=
  ([astypeFloat32 (normalize (loadFeature (md.samples.getD index "")))],
    md.targets.getD index 0)

/-- `MusicData.__len__` (utils.py lines 27-28). -/
def musicDataLen (md : MusicData) : Nat := md.samples.length

/-! ### utils.py, lines 31-61: process_data -/

/-- `'data/{}/{}'.format(data_type, 'features')` (utils.py line 32). -/
def featuresPath (data_type : String) : String := "data/" ++ data_type ++ "/features"

/-- `'data/{}/{}'.format(data_type, 'norm_factors.cpickle')`
(utils.py lines 48 and 61). -/
def normFactorsPath (data_type : String) : String :=
  "data/" ++ data_type ++ "/norm_factors.cpickle"

/-- `os.path.split(f)[1]`: the final path component. -/
def pyBasename (s : String) : String := (s.splitOn "/").getLastD s

/-- Python `s.replace(old, new)`: replace every occurrence. -/
def pyReplace (s old new : String) : String := String.intercalate new (s.splitOn old)

/-- `os.path.join(features_path, os.path.split(f)[1].replace('.wav',
'.cpickle'))` (utils.py lines 41 and 53). -/
def featureFilename (data_type : String) (audio : String) : String :=
  featuresPath data_type ++ "/" ++ pyReplace (pyBasename audio) ".wav" ".cpickle"

/-- The filesystem: which paths exist. -/
structure FSState where
  present : String → Bool

/-- Record a list of paths as created. -/
def FSState.addPaths (fs : FSState) (ps : List String) : FSState :=
  ⟨fun p => fs.present p || ps.contains p⟩

/-- `process_data(data_set, data_type)` (utils.py lines 31-61) as a
filesystem transformer.  `trainFiles` stands for `data_set.train_files()`
and drives which feature files the first branch writes; the second branch
writes the normalization-factor file.  Returns the new filesystem and the
list of paths written, in order. -/
def processData (trainFiles : List String) (data_type : String)
    (fs : FSState) : FSState × List String :=
  let fpath := featuresPath data_type
  let step1 :=
    if fs.present fpath then (fs, ([] : List String))
    else
      let writes := fpath :: trainFiles.map (featureFilename data_type)
      (fs.addPaths writes, writes)
  let npath := normFactorsPath data_type
  if step1.1.present npath then step1
  else (step1.1.addPaths [npath], step1.2 ++ [npath])

/-! ### utils.py, lines 64-78: load_data dispatch -/

/-- The dataset classes `load_data` can construct (utils.py lines 65-76). -/
inductive DatasetClass where
  | tut2018Development
  | tut2018MobileDevelopment
  | tau2019Development
  | tau2019MobileDevelopment
deriving DecidableEq

/-- Python exceptions the embedded code can raise. -/
inductive PyError where
  | notImplementedError (msg : String)
  | typeError (msg : String)
  | systemExit (code : Int)
deriving DecidableEq

/-- The `if/elif/else` dispatch of `load_data` on `data_type`
(utils.py lines 65-78); the `else` branch raises
`NotImplementedError('{} is not implemented'.format(data_type))`. -/
def loadDataSelect (data_type : String) : Except PyError DatasetClass :=
  if data_type = "DCASE2018A" then .ok .tut2018Development
  else if data_type = "DCASE2018B" then .ok .tut2018MobileDevelopment
  else if data_type = "DCASE2019A" then .ok .tau2019Development
  else if data_type = "DCASE2019B" then .ok .tau2019MobileDevelopment
  else .error (.notImplementedError (data_type ++ " is not implemented"))

/-- The four dataset names `load_data` implements. -/
def recognizedDataTypes : List String :=
  ["DCASE2018A", "DCASE2018B", "DCASE2019A", "DCASE2019B"]

/-! ### train.py, lines 19-27: argument parsing -/

/-- The choice set of `--data_name` (train.py line 20). -/
def dataNameChoices : List String := ["voc", "coco", "cityscapes"]

/-- The parsed options `DATA_NAME, BATCH_SIZE, NUM_ITERATIONS, NUM_EPOCH`
(train.py line 27). -/
structure TrainOptions where
  data_name : String
  batch_size : Int
  num_iterations : Int
  num_epochs : Int
deriving DecidableEq

/-- A command line: each flag either given a value or absent. -/
structure CLIArgs where
  data_name : Option String
  batch_size : Option Int
  num_iterations : Option Int
  num_epochs : Option Int

/-- `parser.parse_args()` (train.py lines 19-26): defaults
`voc / 64 / 3 / 100`; only `--data_name` is validated, against
`dataNameChoices`; argparse rejects an invalid choice by exiting with
status 2 (`SystemExit`).  The three integer flags are unconstrained. -/
def parseArgs (args : CLIArgs) : Except PyError TrainOptions :=
  let dn := args.data_name.getD "voc"
  if dn ∈ dataNameChoices then
    .ok ⟨dn, args.batch_size.getD 64, args.num_iterations.getD 3, args.num_epochs.getD 100⟩
  else .error (.systemExit 2)

/-! ### train.py, line 35: the call utils.load_data(DATA_NAME, 'train',
BATCH_SIZE, shuffle=True), checked against the signature
load_data(data_type, batch_size=32) (utils.py line 64) -/

/-- A Python function signature: parameter names in order, and how many of
them lack defaults. -/
structure PyFuncSig where
  params : List String
  numRequired : Nat

/-- The shape of a Python call site: how many positional arguments, and
which keyword names. -/
structure PyCallShape where
  numPositional : Nat
  keywords : List String

/-- Python call binding: positional arguments are matched to parameters in
order, keywords by name; binding raises `TypeError` when there are more
positional arguments than parameters, when a keyword is not a parameter
name, when a keyword repeats a positionally bound parameter, or when a
required parameter is left unbound. -/
def bindCall (sig : PyFuncSig) (call : PyCallShape) : Except PyError Unit :=
  if sig.params.length < call.numPositional then
    .error (.typeError "too many positional arguments")
  else if call.keywords.any (fun k => !(sig.params.contains k)) then
    .error (.typeError "unexpected keyword argument")
  else if call.keywords.any (fun k => sig.params.indexOf k < call.numPositional) then
    .error (.typeError "multiple values for argument")
  else if (List.range sig.numRequired).any
      (fun j => call.numPositional ≤ j && !(call.keywords.contains (sig.params.getD j ""))) then
    .error (.typeError "missing required positional argument")
  else .ok ()

/-- The signature of `load_data(data_type, batch_size=32)` (utils.py
line 64): two parameters, the first required. -/
def loadDataSig : PyFuncSig := ⟨["data_type", "batch_size"], 1⟩

/-- The shape of the call `utils.load_data(DATA_NAME, 'train', BATCH_SIZE,
shuffle=True)` (train.py line 35): three positional arguments and the
keyword `shuffle`. -/
def trainLoadDataCall : PyCallShape := ⟨3, ["shuffle"]⟩

/-- Observable events of a run of `train.py`'s main block. -/
inductive TrainEvent where
  | printPreparingData
  | printBuildingModel
  | epochStarted (e : Nat)
deriving DecidableEq

/-- The main block of `train.py` up to the point it can first fail
(lines 18-36), then the rest of the script abstracted as its event trace:
parse arguments (line 26), print `'==> Preparing data..'` (line 34), bind
the call `utils.load_data(DATA_NAME, 'train', BATCH_SIZE, shuffle=True)`
(line 35); only if that binding succeeded would the model be built and the
epoch loop (lines 71-155) run.  Returns the events emitted and the
uncaught exception, if any. -/
def trainMain (args : CLIArgs) : List TrainEvent × Option PyError :=
  match parseArgs args with
  | .error e => ([], some e)
  | .ok opts =>
    match bindCall loadDataSig trainLoadDataCall with
    | .error e => ([.printPreparingData], some e)
    | .ok _ =>
      ([.printPreparingData, .printBuildingModel] ++
        (List.range opts.num_epochs.toNat).map (fun i => .epochStarted (i + 1)), none)

/-! ### train.py, lines 30-31, 94-96, 123-125, 153-155: the results
dictionary and the statistics CSV -/

/-- The six scalar metrics one epoch produces (train and test loss,
top-1/top-5 accuracy).  Metric values are floats in the source; they are
only stored and compared, so they are modelled as `ℚ`. -/
structure EpochMetrics where
  train_loss : ℚ
  test_loss : ℚ
  train_accuracy_1 : ℚ
  test_accuracy_1 : ℚ
  train_accuracy_5 : ℚ
  test_accuracy_5 : ℚ
deriving DecidableEq

/-- The `results` dictionary (train.py lines 30-31): six lists of
per-epoch metrics. -/
structure Results where
  train_loss : List ℚ
  test_loss : List ℚ
  train_accuracy_1 : List ℚ
  test_accuracy_1 : List ℚ
  train_accuracy_5 : List ℚ
  test_accuracy_5 : List ℚ
deriving DecidableEq

/-- `results` as initialized on train.py lines 30-31: six empty lists. -/
def initialResults : Results := ⟨[], [], [], [], [], []⟩

/-- The net effect of one epoch on `results`: lines 94-96 append the three
train metrics and lines 123-125 append the three test metrics, one value
to each list. -/
def appendEpoch (r : Results) (m : EpochMetrics) : Results :=
  ⟨r.train_loss ++ [m.train_loss], r.test_loss ++ [m.test_loss],
    r.train_accuracy_1 ++ [m.train_accuracy_1], r.test_accuracy_1 ++ [m.test_accuracy_1],
    r.train_accuracy_5 ++ [m.train_accuracy_5], r.test_accuracy_5 ++ [m.test_accuracy_5]⟩

/-- The `results` dictionary after running the epoch loop over the given
per-epoch metrics. -/
def runEpochs (ms : List EpochMetrics) : Results :=
  ms.foldl appendEpoch initialResults

/-- One row of the statistics CSV (train.py lines 154-155): the epoch
index (the `index_label='epoch'` column, drawn from `range(1, epoch+1)`)
and the six metric values. -/
structure CsvRow where
  epoch : Nat
  train_loss : ℚ
  test_loss : ℚ
  train_accuracy_1 : ℚ
  test_accuracy_1 : ℚ
  train_accuracy_5 : ℚ
  test_accuracy_5 : ℚ
deriving DecidableEq

/-- `pd.DataFrame(data=results, index=range(1, epoch+1)).to_csv(...)`
(train.py lines 154-155): one row per epoch `1..numEpochs`, carrying
position `j` of each metric list in the row labelled `j+1`. -/
def resultsToCsv (r : Results) (numEpochs : Nat) : List CsvRow :=
  (List.range numEpochs).map (fun j =>
    ⟨j + 1, r.train_loss.getD j 0, r.test_loss.getD j 0,
      r.train_accuracy_1.getD j 0, r.test_accuracy_1.getD j 0,
      r.train_accuracy_5.getD j 0, r.test_accuracy_5.getD j 0⟩)

/-! ### train.py, lines 70 and 126-129: best_acc and the checkpoint -/

/-- The save decisions of the epoch loop: given the test top-1 accuracy of
each epoch in order and the running `best_acc` (initialized to `0` on
train.py line 70), epoch `e` saves the checkpoint exactly when
`meter_accuracy.value()[0] > best_acc` (line 126), in which case
`best_acc` is updated (line 127). -/
def saveFlags : List ℚ → ℚ → List Bool
  | [], _ => []
  | a :: rest, best => (best < a) :: saveFlags rest (if best < a then a else best)

/-- The value of `best_acc` after processing the given accuracies,
starting from `0` (train.py lines 70, 126-127). -/
def bestAccAfter (accs : List ℚ) : ℚ :=
  accs.foldl (fun best a => if best < a then a else best) 0

/-- Whether the checkpoint `'epochs/{data_name}.pth'` is written in epoch
`e` (1-based), given the per-epoch test top-1 accuracies. -/
def checkpointSaved (accs : List ℚ) (e : Nat) : Bool :=
  (saveFlags accs 0).getD (e - 1) false

/-- The claim's condition on epoch `e` (1-based): its test top-1 accuracy
strictly exceeds that of every earlier epoch. -/
def exceedsAllEarlier (accs : List ℚ) (e : Nat) : Prop :=
  ∀ a ∈ accs.take (e - 1), a < accs.getD (e - 1) 0

/-! ### Concrete inputs used by the witness theorems -/

/-- A small `data_list` table for concrete evaluation. -/
def rowsExample : List Row :=
  [⟨"data/DCASE2018A/features/f1.cpickle", "tram"⟩,
    ⟨"data/DCASE2018A/features/f2.cpickle", "bus"⟩,
    ⟨"data/DCASE2018A/features/f3.cpickle", "tram"⟩]

/-- A filesystem on which both artifacts `process_data` checks for already
exist (for the DCASE2018A dataset). -/
def fsBothExample : FSState :=
  ⟨fun p => decide (p = featuresPath "DCASE2018A") || decide (p = normFactorsPath "DCASE2018A")⟩

/-! ## Theorems -/

/-- C1: `load_data` raises `NotImplementedError` exactly when `data_type` is
not one of the four recognized names DCASE2018A, DCASE2018B, DCASE2019A,
DCASE2019B; for each of those four names no such error is raised and a
dataset object is constructed. -/
theorem load_data_not_implemented_iff (s : String) :
    ((∃ d, loadDataSelect s = .ok d) ↔ s ∈ recognizedDataTypes) ∧
    (s ∉ recognizedDataTypes →
      loadDataSelect s = .error (.notImplementedError (s ++ " is not implemented"))) := by
  by_cases h1 : s = "DCASE2018A" <;> by_cases h2 : s = "DCASE2018B" <;>
    by_cases h3 : s = "DCASE2019A" <;> by_cases h4 : s = "DCASE2019B" <;>
    simp_all [loadDataSelect, recognizedDataTypes]

/-- C1 witness: concrete instances, one recognized name and one not. -/
theorem load_data_not_implemented_iff_witness :
    (∃ d, loadDataSelect "DCASE2018A" = .ok d) ∧
    loadDataSelect "voc" = .error (.notImplementedError ("voc" ++ " is not implemented")) :=
  ⟨(load_data_not_implemented_iff "DCASE2018A").1.mpr (by decide),
    (load_data_not_implemented_iff "voc").2 (by decide)⟩

/-- C2: every dataset name the CLI choice set permits (voc, coco,
cityscapes) makes `load_data` raise `NotImplementedError`; the CLI choice
set and the set of implemented names are disjoint. -/
theorem cli_names_unimplemented (s : String) (hs : s ∈ dataNameChoices) :
    loadDataSelect s = .error (.notImplementedError (s ++ " is not implemented")) ∧
    s ∉ recognizedDataTypes := by
  fin_cases hs <;> exact ⟨rfl, by decide⟩

/-- C2 witness: the default CLI name voc, concretely. -/
theorem cli_names_unimplemented_witness :
    loadDataSelect "voc" = .error (.notImplementedError ("voc" ++ " is not implemented")) ∧
    "voc" ∉ recognizedDataTypes :=
  cli_names_unimplemented "voc" (by decide)

/-- C4: argument parsing has defaults voc / 64 / 3 / 100; any integers,
zero and negatives included, are accepted for the three numeric flags;
only `data_name` is validated, against the fixed choice set. -/
theorem parse_args_spec :
    parseArgs ⟨none, none, none, none⟩ = .ok ⟨"voc", 64, 3, 100⟩ ∧
    (∀ dn b i e, dn ∈ dataNameChoices →
      parseArgs ⟨some dn, some b, some i, some e⟩ = .ok ⟨dn, b, i, e⟩) ∧
    (∀ dn b i e, dn ∉ dataNameChoices →
      parseArgs ⟨some dn, b, i, e⟩ = .error (.systemExit 2)) := by
  refine ⟨rfl, ?_, ?_⟩
  · intro dn b i e h
    simp [parseArgs, h]
  · intro dn b i e h
    simp [parseArgs, h]

/-- C4 witness: the defaults, a run with zero and negative integers, and a
rejected dataset name. -/
theorem parse_args_spec_witness :
    parseArgs ⟨none, none, none, none⟩ = .ok ⟨"voc", 64, 3, 100⟩ ∧
    parseArgs ⟨some "coco", some (-5), some 0, some (-1)⟩ = .ok ⟨"coco", -5, 0, -1⟩ ∧
    parseArgs ⟨some "imagenet", none, none, none⟩ = .error (.systemExit 2) :=
  ⟨parse_args_spec.1, parse_args_spec.2.1 "coco" (-5) 0 (-1) (by decide),
    parse_args_spec.2.2 "imagenet" none none none (by decide)⟩

/-- C6: the code contradicts the claim that the persisted normalization
file `process_data` saves is the file `MusicData` loads: for every dataset
name, `process_data` saves to `data/{data_type}/norm_factors.cpickle`
while `MusicData.__init__` loads `norm_factors.cpickle` from the working
directory, a different path. -/
theorem norm_factors_save_load_mismatch (data_type : String) :
    normFactorsPath data_type ≠ musicDataNormalizerPath := by
  intro h
  have hl : ("data/" ++ data_type ++ "/norm_factors.cpickle").length =
      ("norm_factors.cpickle" : String).length := congrArg String.length h
  rw [String.length_append, String.length_append] at hl
  have h1 : ("data/" : String).length = 5 := rfl
  have h2 : ("/norm_factors.cpickle" : String).length = 21 := rfl
  have h3 : ("norm_factors.cpickle" : String).length = 20 := rfl
  omega

/-- C3 counterexample: the claim says every invocation fails at the
`load_data` call with a `TypeError` regardless of the CLI arguments, but
the invocation `--data_name imagenet` is rejected by the argument parser
(`SystemExit`, exit status 2) and never reaches the `load_data` call. -/
theorem train_main_type_error_counterexample :
    (trainMain ⟨some "imagenet", none, none, none⟩).2 = some (.systemExit 2) ∧
    (trainMain ⟨some "imagenet", none, none, none⟩).2 ≠
      some (.typeError "too many positional arguments") :=
  ⟨rfl, by decide⟩

/-- C3 (amended): every invocation whose CLI arguments the parser accepts
fails at the call `utils.load_data(DATA_NAME, 'train', BATCH_SIZE,
shuffle=True)` with a `TypeError`, because `load_data` accepts only two
parameters; the failure happens before any training iteration runs. -/
theorem train_main_type_error (args : CLIArgs) (opts : TrainOptions)
    (h : parseArgs args = .ok opts) :
    (trainMain args).2 = some (.typeError "too many positional arguments") ∧
    ∀ e, TrainEvent.epochStarted e ∉ (trainMain args).1 := by
  have hb : bindCall loadDataSig trainLoadDataCall =
      .error (.typeError "too many positional arguments") := rfl
  refine ⟨?_, ?_⟩ <;> simp [trainMain, h, hb]

/-- C3 witness: the default command line parses, and the run fails with the
`TypeError` before any epoch starts. -/
theorem train_main_type_error_witness :
    (trainMain ⟨none, none, none, none⟩).2 =
      some (.typeError "too many positional arguments") ∧
    TrainEvent.epochStarted 1 ∉ (trainMain ⟨none, none, none, none⟩).1 :=
  ⟨(train_main_type_error ⟨none, none, none, none⟩ ⟨"voc", 64, 3, 100⟩ rfl).1,
    (train_main_type_error ⟨none, none, none, none⟩ ⟨"voc", 64, 3, 100⟩ rfl).2 1⟩

/-- Helper for C9: when both artifacts exist, `process_data` leaves the
filesystem unchanged and writes nothing. -/
theorem processData_noop (tf : List String) (dt : String) (fs : FSState)
    (h1 : fs.present (featuresPath dt) = true)
    (h2 : fs.present (normFactorsPath dt) = true) :
    processData tf dt fs = (fs, []) := by
  simp [processData, h1, h2]

/-- Helper for C9: after a run of `process_data` both the features
directory and the normalization-factor file exist. -/
theorem processData_present (tf : List String) (dt : String) (fs : FSState) :
    (processData tf dt fs).1.present (featuresPath dt) = true ∧
    (processData tf dt fs).1.present (normFactorsPath dt) = true := by
  by_cases h1 : fs.present (featuresPath dt) = true <;>
    by_cases h2 : fs.present (normFactorsPath dt) = true <;>
    simp_all [processData, FSState.addPaths] <;>
    constructor <;> split <;> simp_all

/-- C9: `process_data` is idempotent on the filesystem: feature extraction
is guarded by the features directory existing and normalizer computation by
the normalization-factor file existing, so a call on a filesystem holding
both artifacts writes nothing and changes nothing, and a second run after
any first run writes nothing and changes nothing. -/
theorem process_data_idempotent (tf : List String) (dt : String) (fs : FSState) :
    (fs.present (featuresPath dt) = true → fs.present (normFactorsPath dt) = true →
      processData tf dt fs = (fs, [])) ∧
    (fs.present (featuresPath dt) = true → fs.present (normFactorsPath dt) = false →
      processData tf dt fs = (fs.addPaths [normFactorsPath dt], [normFactorsPath dt])) ∧
    processData tf dt (processData tf dt fs).1 = ((processData tf dt fs).1, []) :=
  ⟨fun h1 h2 => processData_noop tf dt fs h1 h2,
    fun h1 h2 => by simp [processData, h1, h2],
    processData_noop tf dt _ (processData_present tf dt fs).1
      (processData_present tf dt fs).2⟩

/-- C9 witness: on a filesystem holding both DCASE2018A artifacts,
`process_data` is a no-op. -/
theorem process_data_idempotent_witness :
    processData ["a.wav"] "DCASE2018A" fsBothExample = (fsBothExample, []) :=
  (process_data_idempotent ["a.wav"] "DCASE2018A" fsBothExample).1 (by decide) (by decide)

/-- Helper: `getD` through `map` at a valid index. -/
theorem getD_map_get {α β : Type} (f : α → β) (l : List α) (i : Nat) (d : β)
    (h : i < l.length) : (l.map f).getD i d = f (l.get ⟨i, h⟩) := by
  rw [List.getD_eq_getElem?_getD, List.getElem?_map,
    List.getElem?_eq_getElem (by simpa using h)]
  rfl

/-- Helper: `getD` through a map over `range` at a valid index. -/
theorem getD_map_range {α : Type} (n j : Nat) (f : Nat → α) (d : α) (h : j < n) :
    ((List.range n).map f).getD j d = f j := by
  rw [List.getD_eq_getElem?_getD, List.getElem?_map, List.getElem?_range h]
  rfl

/-- Helper for C7: the epoch fold, field by field. -/
theorem foldl_appendEpoch (ms : List EpochMetrics) (acc : Results) :
    ms.foldl appendEpoch acc =
      ⟨acc.train_loss ++ ms.map EpochMetrics.train_loss,
        acc.test_loss ++ ms.map EpochMetrics.test_loss,
        acc.train_accuracy_1 ++ ms.map EpochMetrics.train_accuracy_1,
        acc.test_accuracy_1 ++ ms.map EpochMetrics.test_accuracy_1,
        acc.train_accuracy_5 ++ ms.map EpochMetrics.train_accuracy_5,
        acc.test_accuracy_5 ++ ms.map EpochMetrics.test_accuracy_5⟩ := by
  induction ms generalizing acc with
  | nil => simp
  | cons m ms ih => simp [appendEpoch, ih]

/-- C7: after `e` completed epochs each of the six metric lists is exactly
the per-epoch values in order (so it has `e` entries and earlier entries
are never changed), and the CSV written after epoch `e` has exactly the
rows labelled `1..e`, row `j+1` holding epoch `j+1`'s six metrics. -/
theorem results_per_epoch_spec (ms : List EpochMetrics) :
    (runEpochs ms).train_loss = ms.map EpochMetrics.train_loss ∧
    (runEpochs ms).test_loss = ms.map EpochMetrics.test_loss ∧
    (runEpochs ms).train_accuracy_1 = ms.map EpochMetrics.train_accuracy_1 ∧
    (runEpochs ms).test_accuracy_1 = ms.map EpochMetrics.test_accuracy_1 ∧
    (runEpochs ms).train_accuracy_5 = ms.map EpochMetrics.train_accuracy_5 ∧
    (runEpochs ms).test_accuracy_5 = ms.map EpochMetrics.test_accuracy_5 ∧
    (resultsToCsv (runEpochs ms) ms.length).map CsvRow.epoch = List.range' 1 ms.length ∧
    ∀ j (h : j < ms.length),
      (resultsToCsv (runEpochs ms) ms.length).getD j ⟨0, 0, 0, 0, 0, 0, 0⟩ =
        ⟨j + 1, (ms.get ⟨j, h⟩).train_loss, (ms.get ⟨j, h⟩).test_loss,
          (ms.get ⟨j, h⟩).train_accuracy_1, (ms.get ⟨j, h⟩).test_accuracy_1,
          (ms.get ⟨j, h⟩).train_accuracy_5, (ms.get ⟨j, h⟩).test_accuracy_5⟩ := by
  have hr : runEpochs ms =
      ⟨ms.map EpochMetrics.train_loss, ms.map EpochMetrics.test_loss,
        ms.map EpochMetrics.train_accuracy_1, ms.map EpochMetrics.test_accuracy_1,
        ms.map EpochMetrics.train_accuracy_5, ms.map EpochMetrics.test_accuracy_5⟩ := by
    simpa [runEpochs, initialResults] using foldl_appendEpoch ms initialResults
  refine ⟨by rw [hr], by rw [hr], by rw [hr], by rw [hr], by rw [hr], by rw [hr], ?_, ?_⟩
  · rw [List.range'_eq_map_range]
    simp [resultsToCsv, Function.comp, Nat.add_comm]
  · intro j h
    rw [hr]
    rw [resultsToCsv, getD_map_range _ _ _ _ h]
    simp [getD_map_get _ ms j _ h, List.getElem?_eq_getElem h]

/-- C7 witness: one epoch of concrete metrics. -/
theorem results_per_epoch_spec_witness :
    (resultsToCsv (runEpochs [(⟨1, 2, 3, 4, 5, 6⟩ : EpochMetrics)]) 1).getD 0
        ⟨0, 0, 0, 0, 0, 0, 0⟩ = ⟨1, 1, 2, 3, 4, 5, 6⟩ ∧
    (runEpochs [(⟨1, 2, 3, 4, 5, 6⟩ : EpochMetrics)]).test_accuracy_1 = [4] := by
  have h := results_per_epoch_spec [(⟨1, 2, 3, 4, 5, 6⟩ : EpochMetrics)]
  exact ⟨by simpa using h.2.2.2.2.2.2.2 0 (by decide), by simpa using h.2.2.2.1⟩

/-- C8: for every valid index, `__getitem__` returns the feature loaded
from `samples[i]` (which is row `i`'s file name), normalized, cast to
float32, with one leading dimension added, paired with `targets[i]`; and
`__len__` is the number of rows the dataset was built from. -/
theorem music_data_getitem_spec {Feat Tensor : Type} (loadFeature : String → Feat)
    (normalize : Feat → Feat) (astypeFloat32 : Feat → Tensor)
    (rows : List Row) (i : Nat) (h : i < rows.length) :
    musicDataGetitem loadFeature normalize astypeFloat32 (musicDataInit rows) i =
      ([astypeFloat32 (normalize (loadFeature (rows.get ⟨i, h⟩).file_name))],
        (targets rows).getD i 0) ∧
    musicDataLen (musicDataInit rows) = rows.length := by
  constructor
  · rw [musicDataGetitem, musicDataInit]
    rw [getD_map_get Row.file_name rows i _ h]
  · rw [musicDataLen, musicDataInit]
    exact List.length_map rows Row.file_name

/-- C8 witness: the second row of the concrete table, with the float32
cast instantiated to a concrete function. -/
theorem music_data_getitem_spec_witness :
    musicDataGetitem id id String.length (musicDataInit rowsExample) 1 =
      ([("data/DCASE2018A/features/f2.cpickle" : String).length],
        (targets rowsExample).getD 1 0) ∧
    musicDataLen (musicDataInit rowsExample) = 3 := by
  have h := music_data_getitem_spec id id String.length rowsExample 1 (by decide)
  exact ⟨by simpa [rowsExample] using h.1, by simpa [rowsExample] using h.2⟩

/-- Helper for C5: looking a key up in the enumerated association list
finds the position of its first occurrence. -/
theorem lookup_enumFrom_map (s : List String) (l : String) (n : Nat) (hl : l ∈ s) :
    ((s.enumFrom n).map (fun p => (p.2, p.1))).lookup l = some (n + s.indexOf l) := by
  induction s generalizing n with
  | nil => cases hl
  | cons a t ih =>
    by_cases h : l = a
    · subst h
      simp [List.enumFrom, List.lookup, List.indexOf_cons_self]
    · have h' : l ∈ t := (List.mem_cons.mp hl).resolve_left h
      have hne : (l == a) = false := beq_eq_false_iff_ne.mpr h
      simp only [List.enumFrom, List.map_cons, List.lookup, hne]
      rw [ih _ h', List.indexOf_cons_ne t (Ne.symm h)]
      congr 1
      omega

/-- Helper for C5: the dict lookup is the index in the sorted label list. -/
theorem labelIndex_eq_indexOf (rows : List Row) (l : String)
    (hl : l ∈ sortedUniqueLabels rows) :
    labelIndex rows l = some ((sortedUniqueLabels rows).indexOf l) := by
  have h := lookup_enumFrom_map (sortedUniqueLabels rows) l 0 hl
  simpa [labelIndex, label2index, List.enum] using h

/-- Helper for C5: the sorted distinct-label list is strictly sorted. -/
theorem sortedUniqueLabels_pairwise (rows : List Row) :
    (sortedUniqueLabels rows).Pairwise pyStrLt := by
  have hs : (sortedUniqueLabels rows).Pairwise pyStrLe :=
    List.sorted_insertionSort pyStrLe (uniqueLabels rows)
  have hn : (sortedUniqueLabels rows).Nodup :=
    (List.Perm.nodup_iff (List.perm_insertionSort pyStrLe (uniqueLabels rows))).mpr
      (List.nodup_dedup _)
  refine (hs.and hn).imp ?_
  rintro a b ⟨h1, h2⟩
  exact lt_of_le_of_ne h1 (fun hd => h2 (String.toList_inj.mp hd))

/-- Helper for C5: in a strictly sorted list, the index of an element is
the number of elements strictly below it. -/
theorem indexOf_eq_countP (s : List String) (hp : s.Pairwise pyStrLt) (l : String)
    (hl : l ∈ s) :
    s.indexOf l = s.countP (fun x => decide (pyStrLt x l)) := by
  induction s with
  | nil => cases hl
  | cons a t ih =>
    rw [List.pairwise_cons] at hp
    by_cases h : l = a
    · subst h
      rw [List.indexOf_cons_self, List.countP_cons]
      have h0 : ¬ pyStrLt l l := lt_irrefl l.data
      have ht : t.countP (fun x => decide (pyStrLt x l)) = 0 := by
        rw [List.countP_eq_zero]
        intro x hx
        simp only [decide_eq_true_eq]
        exact lt_asymm (hp.1 x hx)
      simp [ht, h0]
    · have h' : l ∈ t := (List.mem_cons.mp hl).resolve_left h
      rw [List.indexOf_cons_ne t (Ne.symm h), List.countP_cons, ih hp.2 h']
      have hal : pyStrLt a l := hp.1 l h'
      simp [hal]

/-- Helper for C5: in a duplicate-free list, the index of the j-th element
is j. -/
theorem nodup_indexOf_get (s : List String) (hn : s.Nodup) (j : Nat)
    (hj : j < s.length) : s.indexOf (s.get ⟨j, hj⟩) = j := by
  have hmem : s.get ⟨j, hj⟩ ∈ s := List.get_mem s j hj
  have hlt : s.indexOf (s.get ⟨j, hj⟩) < s.length := List.indexOf_lt_length.mpr hmem
  have hget : s.get ⟨s.indexOf (s.get ⟨j, hj⟩), hlt⟩ = s.get ⟨j, hj⟩ :=
    List.indexOf_get hlt
  have := (List.Nodup.get_inj_iff hn).mp hget
  exact congrArg Fin.val this

/-- C5: the label-to-index dict maps each distinct label to its rank among
the distinct labels (the number of distinct labels strictly below it in
Python string order); the assigned indices are exactly the dense set
0..k-1 for k distinct labels; and each row's target is the index assigned
to that row's label. -/
theorem label_index_rank_spec (rows : List Row) :
    (∀ l ∈ uniqueLabels rows,
      labelIndex rows l =
        some ((uniqueLabels rows).countP (fun x => decide (pyStrLt x l)))) ∧
    (∀ l ∈ uniqueLabels rows, ∀ i, labelIndex rows l = some i →
      i < (uniqueLabels rows).length) ∧
    (∀ j, j < (uniqueLabels rows).length →
      ∃ l ∈ uniqueLabels rows, labelIndex rows l = some j) ∧
    (∀ i (h : i < rows.length),
      labelIndex rows ((rows.get ⟨i, h⟩).file_label) =
        some ((targets rows).getD i 0)) := by
  have hperm : List.Perm (sortedUniqueLabels rows) (uniqueLabels rows) :=
    List.perm_insertionSort pyStrLe (uniqueLabels rows)
  have hmem : ∀ {l : String}, l ∈ uniqueLabels rows ↔ l ∈ sortedUniqueLabels rows :=
    fun {l} => (hperm.mem_iff).symm
  have hnodup : (sortedUniqueLabels rows).Nodup :=
    (hperm.nodup_iff).mpr (List.nodup_dedup _)
  have hlen : (sortedUniqueLabels rows).length = (uniqueLabels rows).length :=
    hperm.length_eq
  refine ⟨?_, ?_, ?_, ?_⟩
  · intro l hl
    have hl' := hmem.mp hl
    rw [labelIndex_eq_indexOf rows l hl',
      indexOf_eq_countP _ (sortedUniqueLabels_pairwise rows) l hl',
      hperm.countP_eq]
  · intro l hl i hi
    have hl' := hmem.mp hl
    rw [labelIndex_eq_indexOf rows l hl'] at hi
    cases hi
    rw [← hlen]
    exact List.indexOf_lt_length.mpr hl'
  · intro j hj
    have hj' : j < (sortedUniqueLabels rows).length := hlen ▸ hj
    refine ⟨(sortedUniqueLabels rows).get ⟨j, hj'⟩,
      hmem.mpr (List.get_mem _ j hj'), ?_⟩
    rw [labelIndex_eq_indexOf rows _ (List.get_mem _ j hj'),
      nodup_indexOf_get _ hnodup j hj']
  · intro i h
    have hl : (rows.get ⟨i, h⟩).file_label ∈ fileLabels rows :=
      List.mem_map_of_mem Row.file_label (List.get_mem rows i h)
    have hl' : (rows.get ⟨i, h⟩).file_label ∈ sortedUniqueLabels rows :=
      hmem.mp (List.mem_dedup.mpr hl)
    have ht : (targets rows).getD i 0 =
        (sortedUniqueLabels rows).indexOf ((rows.get ⟨i, h⟩).file_label) := by
      rw [targets, getD_map_get _ rows i _ h, labelIndex_eq_indexOf rows _ hl']
      rfl
    rw [ht, labelIndex_eq_indexOf rows _ hl']

/-- C5 witness: the concrete table; bus gets rank 0, tram rank 1; row 0 is
a tram row and its target is the index assigned to tram. -/
theorem label_index_rank_spec_witness :
    labelIndex rowsExample "tram" =
      some ((uniqueLabels rowsExample).countP (fun x => decide (pyStrLt x "tram"))) ∧
    labelIndex rowsExample ((rowsExample.get ⟨0, by decide⟩).file_label) =
      some ((targets rowsExample).getD 0 0) :=
  ⟨(label_index_rank_spec rowsExample).1 "tram" (by decide),
    (label_index_rank_spec rowsExample).2.2.2 0 (by decide)⟩

/-- Helper for C10: the update on line 127 is the binary max. -/
theorem if_lt_eq_max (b a : ℚ) : (if b < a then a else b) = max b a := by
  rcases lt_or_le b a with h | h
  · simp [h, max_eq_right h.le]
  · simp [not_lt.mpr h, max_eq_left h]

/-- Helper for C10: the save flag of the k-th epoch compares its accuracy
with the running fold of max over the earlier accuracies. -/
theorem saveFlags_getD (accs : List ℚ) (b : ℚ) (k : Nat) (h : k < accs.length) :
    (saveFlags accs b).getD k false =
      decide ((accs.take k).foldl max b < accs.getD k 0) := by
  induction accs generalizing b k with
  | nil => cases h
  | cons a rest ih =>
    cases k with
    | zero => simp [saveFlags]
    | succ k =>
      have hk : k < rest.length := by simpa using h
      simp only [saveFlags, List.getD_cons_succ, List.take_succ_cons, List.foldl_cons,
        List.getD_cons_succ]
      rw [if_lt_eq_max, ih (max b a) k hk]

/-- Helper for C10: a fold of max is below a bound exactly when the seed
and every listed value are. -/
theorem foldl_max_lt_iff (l : List ℚ) (b x : ℚ) :
    l.foldl max b < x ↔ b < x ∧ ∀ y ∈ l, y < x := by
  induction l generalizing b with
  | nil => simp
  | cons a t ih =>
    rw [List.foldl_cons, ih, max_lt_iff]
    simp only [List.mem_cons]
    constructor
    · rintro ⟨⟨hb, ha⟩, ht⟩
      exact ⟨hb, fun y hy => hy.elim (fun hh => hh ▸ ha) (ht y)⟩
    · rintro ⟨hb, ht⟩
      exact ⟨⟨hb, ht a (Or.inl rfl)⟩, fun y hy => ht y (Or.inr hy)⟩

/-- Helper for C10: `best_acc` is the max of 0 and the accuracies seen. -/
theorem bestAccAfter_eq_foldl_max (accs : List ℚ) :
    bestAccAfter accs = accs.foldl max 0 := by
  have hfun : (fun best a : ℚ => if best < a then a else best) = max :=
    funext fun b => funext fun a => if_lt_eq_max b a
  rw [bestAccAfter, hfun]

/-- Helper for C10: `best_acc` never decreases from one epoch to the next. -/
theorem bestAccAfter_take_mono (accs : List ℚ) (n : Nat) :
    bestAccAfter (accs.take n) ≤ bestAccAfter (accs.take (n + 1)) := by
  rw [bestAccAfter_eq_foldl_max, bestAccAfter_eq_foldl_max, List.take_succ,
    List.foldl_append]
  cases h : accs[n]? with
  | none => simp
  | some a => simp [le_max_left]

/-- C10 counterexample: with a single epoch whose test top-1 accuracy is 0,
that epoch strictly exceeds every earlier epoch vacuously, yet the
checkpoint is not written, because `best_acc` starts at 0 and the code
requires the accuracy to strictly exceed it. -/
theorem checkpoint_saved_claim_counterexample :
    ¬ (checkpointSaved [(0 : ℚ)] 1 = true ↔ exceedsAllEarlier [(0 : ℚ)] 1) := by
  intro hiff
  have h2 : exceedsAllEarlier [(0 : ℚ)] 1 := by
    intro a ha
    simp [List.take] at ha
  have h1 := hiff.mpr h2
  simp [checkpointSaved, saveFlags] at h1

/-- C10 (amended): the checkpoint is written in epoch `e` exactly when its
test top-1 accuracy strictly exceeds the maximum of 0 and all earlier
epochs' test top-1 accuracies (equivalently: is positive and strictly
exceeds every earlier epoch); `best_acc` equals the fold of max over 0 and
the accuracies seen so far, and is monotonically nondecreasing. -/
theorem checkpoint_saved_iff (accs : List ℚ) (e : Nat) (h1 : 1 ≤ e)
    (h2 : e - 1 < accs.length) :
    (checkpointSaved accs e = true ↔
      (0 < accs.getD (e - 1) 0 ∧ exceedsAllEarlier accs e)) ∧
    bestAccAfter accs = accs.foldl max 0 ∧
    (∀ n, bestAccAfter (accs.take n) ≤ bestAccAfter (accs.take (n + 1))) := by
  refine ⟨?_, bestAccAfter_eq_foldl_max accs, fun n => bestAccAfter_take_mono accs n⟩
  rw [checkpointSaved, saveFlags_getD accs 0 (e - 1) h2, decide_eq_true_eq,
    foldl_max_lt_iff]
  exact Iff.rfl

/-- C10 witness: three epochs with accuracies 1, 0, 2; epoch 3 is saved
exactly when its accuracy is positive and exceeds both earlier epochs. -/
theorem checkpoint_saved_iff_witness :
    (checkpointSaved [(1 : ℚ), 0, 2] 3 = true ↔
      (0 < [(1 : ℚ), 0, 2].getD 2 0 ∧ exceedsAllEarlier [(1 : ℚ), 0, 2] 3)) ∧
    bestAccAfter [(1 : ℚ), 0, 2] = [(1 : ℚ), 0, 2].foldl max 0 :=
  ⟨(checkpoint_saved_iff [1, 0, 2] 3 (by decide) (by decide)).1,
    (checkpoint_saved_iff [1, 0, 2] 3 (by decide) (by decide)).2.1⟩

end SCN
